import Mathlib

/-!
Shallow embedding of `src/agent-bot/knowledge-graph/src/main.rs`:
an in-process knowledge-graph store with two `Mutex<Vec<_>>` collections
(entities and relationships) and three HTTP handlers
(`create_entity`, `list_entities`, `create_relationship`).
-/

namespace KnowledgeGraph

mutual

/-- JSON values, modelling `serde_json::Value` (numbers abstracted to `Int`;
the store treats `metadata` as opaque, so the number representation is
irrelevant to every property below). -/
inductive JsonValue where
  | null : JsonValue
  | bool (b : Bool) : JsonValue
  | num (n : Int) : JsonValue
  | str (s : String) : JsonValue
  | arr (xs : JsonArray) : JsonValue
  | obj (fields : JsonObject) : JsonValue

/-- A JSON array of values. -/
inductive JsonArray where
  | nil : JsonArray
  | cons (hd : JsonValue) (tl : JsonArray) : JsonArray

/-- A JSON object: an ordered list of key/value fields. -/
inductive JsonObject where
  | nil : JsonObject
  | cons (key : String) (val : JsonValue) (tl : JsonObject) : JsonObject

end

deriving instance DecidableEq for JsonValue, JsonArray, JsonObject

/-- Conversion of a Lean list of JSON values into a `JsonArray`. -/
def JsonArray.ofList : List JsonValue → JsonArray
  | [] => .nil
  | x :: xs => .cons x (JsonArray.ofList xs)

/-- Number of occurrences of a value in a `JsonArray`. -/
def JsonArray.count (v : JsonValue) : JsonArray → Nat
  | .nil => 0
  | .cons x tl => (if x = v then 1 else 0) + JsonArray.count v tl

/-- The `Entity` record of `main.rs`: `id`, `entity_type`, `name`,
and an opaque `metadata` JSON payload. -/
structure Entity where
  id : String
  entity_type : String
  name : String
  metadata : JsonValue
deriving DecidableEq

/-- The `Relationship` record of `main.rs`: `from_id`, `to_id`,
`relationship_type`. -/
structure Relationship where
  from_id : String
  to_id : String
  relationship_type : String
deriving DecidableEq

/-- Serialization of an `Entity` as derived by serde: a JSON object with the
four fields in declaration order. -/
def Entity.toJson (e : Entity) : JsonValue :=
  .obj (.cons "id" (.str e.id)
    (.cons "entity_type" (.str e.entity_type)
      (.cons "name" (.str e.name)
        (.cons "metadata" e.metadata .nil))))

/-- Serialization of a `Relationship` as derived by serde. -/
def Relationship.toJson (r : Relationship) : JsonValue :=
  .obj (.cons "from_id" (.str r.from_id)
    (.cons "to_id" (.str r.to_id)
      (.cons "relationship_type" (.str r.relationship_type) .nil)))

/-- A `std::sync::Mutex` over contents of type `α`: the protected contents
together with the poisoned flag (set when a previous holder panicked while
holding the lock). -/
structure Mutex (α : Type) where
  poisoned : Bool
  inner : α
deriving DecidableEq

/-- The panic raised by `.lock().unwrap()` on a poisoned mutex; it aborts
the current request. -/
inductive PoisonPanic where
  | poisoned : PoisonPanic
deriving DecidableEq

/-- Model of `Mutex::lock` followed by `.unwrap()`: yields the contents, or
panics if the mutex is poisoned. -/
def Mutex.lockUnwrap {α : Type} (m : Mutex α) : Except PoisonPanic α :=
  if m.poisoned then .error .poisoned else .ok m.inner

/-- `AppState` of `main.rs`: the two independently locked stores. -/
structure AppState where
  entities : Mutex (List Entity)
  relationships : Mutex (List Relationship)
deriving DecidableEq

/-- An HTTP response: status code and JSON body. -/
structure HttpResponse where
  status : Nat
  body : JsonValue
deriving DecidableEq

/-- The `201 Created` response with body `\x7b"status":"created"\x7d` shared
by the two create handlers. -/
def createdResponse : HttpResponse :=
  ⟨201, .obj (.cons "status" (.str "created") .nil)⟩

/-- Handler `create_entity`: locks the entity store, pushes the record at the
end, responds `201` with `status: created`. Panics (aborting the request)
exactly when the entity lock is poisoned. -/
def create_entity (entity : Entity) (data : AppState) :
    Except PoisonPanic (HttpResponse × AppState) := do
  let entities ← data.entities.lockUnwrap
  let entities := entities ++ [entity]
  pure (createdResponse,
    { data with entities := { data.entities with inner := entities } })

/-- Handler `list_entities`: locks the entity store and responds `200` with
the JSON array of all stored entities in insertion order. Panics exactly when
the entity lock is poisoned. -/
def list_entities (data : AppState) :
    Except PoisonPanic (HttpResponse × AppState) := do
  let entities ← data.entities.lockUnwrap
  pure (⟨200, .arr (.ofList (entities.map Entity.toJson))⟩, data)

/-- Handler `create_relationship`: locks the relationship store, pushes the
record at the end, responds `201` with `status: created`. Panics exactly
when the relationship lock is poisoned. -/
def create_relationship (relationship : Relationship) (data : AppState) :
    Except PoisonPanic (HttpResponse × AppState) := do
  let relationships ← data.relationships.lockUnwrap
  let relationships := relationships ++ [relationship]
  pure (createdResponse,
    { data with relationships := { data.relationships with inner := relationships } })

/-- Modelled from the spec: `main.rs` exposes no relationship-listing route;
spec section 4.2 specifies relationship enumeration as structurally symmetric
to `list_entities`, so it is modelled here from that symmetry. -/
def list_relationships (data : AppState) :
    Except PoisonPanic (HttpResponse × AppState) := do
  let relationships ← data.relationships.lockUnwrap
  pure (⟨200, .arr (.ofList (relationships.map Relationship.toJson))⟩, data)

/-- The state built in `main`: both stores start as fresh (unpoisoned)
mutexes over empty vectors. -/
def initialAppState : AppState :=
  { entities := ⟨false, []⟩, relationships := ⟨false, []⟩ }

/-- Sample entity from the spec's concrete scenario. -/
def adaEntity : Entity :=
  ⟨"e1", "person", "Ada", .obj .nil⟩

/-- Second sample entity from the spec's concrete scenario. -/
def paperEntity : Entity :=
  ⟨"e2", "document", "Paper", .obj (.cons "year" (.num 1843) .nil)⟩

/-- An entity sharing `adaEntity`'s id but differing in the other fields. -/
def adaDuplicate : Entity :=
  ⟨"e1", "document", "Paper", .obj .nil⟩

/-- Sample relationship from the spec's concrete scenario. -/
def authoredRel : Relationship :=
  ⟨"e1", "e2", "authored"⟩

/-- A store state holding exactly one entity, `adaEntity`. -/
def stateWithAda : AppState :=
  { entities := ⟨false, [adaEntity]⟩, relationships := ⟨false, []⟩ }

/-- A store state holding exactly one relationship, `authoredRel`. -/
def stateWithRel : AppState :=
  { entities := ⟨false, []⟩, relationships := ⟨false, [authoredRel]⟩ }

/-- The store state holding `adaEntity` then `paperEntity`. -/
def stateWithAdaPaper : AppState :=
  { entities := ⟨false, [adaEntity, paperEntity]⟩,
    relationships := ⟨false, []⟩ }

/-- A store state whose two locks are both poisoned. -/
def poisonedState : AppState :=
  { entities := ⟨true, []⟩, relationships := ⟨true, []⟩ }

/-- Full characterization of `create_entity`: panic when the entity lock is
poisoned, otherwise push at the end and answer `201 created`. -/
theorem create_entity_characterization (e : Entity) (s : AppState) :
    create_entity e s =
      if s.entities.poisoned then Except.error .poisoned
      else Except.ok (createdResponse,
        { s with entities := ⟨false, s.entities.inner ++ [e]⟩ }) := by
  by_cases h : s.entities.poisoned <;>
    simp [create_entity, Mutex.lockUnwrap, h]

/-- Full characterization of `list_entities`: panic when the entity lock is
poisoned, otherwise answer `200` with the serialized entity list and leave
the state untouched. -/
theorem list_entities_characterization (s : AppState) :
    list_entities s =
      if s.entities.poisoned then Except.error .poisoned
      else Except.ok
        (⟨200, .arr (.ofList (s.entities.inner.map Entity.toJson))⟩, s) := by
  by_cases h : s.entities.poisoned <;>
    simp [list_entities, Mutex.lockUnwrap, h]

/-- Full characterization of `create_relationship`: panic when the
relationship lock is poisoned, otherwise push at the end and answer
`201 created`. -/
theorem create_relationship_characterization (r : Relationship) (s : AppState) :
    create_relationship r s =
      if s.relationships.poisoned then Except.error .poisoned
      else Except.ok (createdResponse,
        { s with relationships := ⟨false, s.relationships.inner ++ [r]⟩ }) := by
  by_cases h : s.relationships.poisoned <;>
    simp [create_relationship, Mutex.lockUnwrap, h]

/-- C1 (counterexample): the claim quantifies over every store state, but the
store enforces no uniqueness, so appending `adaEntity` to a state that
already holds `adaEntity` makes a subsequent enumeration return two copies
of it, not exactly one. -/
theorem C1_counterexample :
    create_entity adaEntity stateWithAda =
      .ok (createdResponse,
        { entities := ⟨false, [adaEntity, adaEntity]⟩,
          relationships := ⟨false, []⟩ }) ∧
    list_entities
        { entities := ⟨false, [adaEntity, adaEntity]⟩,
          relationships := ⟨false, []⟩ } =
      .ok (⟨200, .arr (.ofList [adaEntity.toJson, adaEntity.toJson])⟩,
        { entities := ⟨false, [adaEntity, adaEntity]⟩,
          relationships := ⟨false, []⟩ }) ∧
    JsonArray.count adaEntity.toJson
      (.ofList [adaEntity.toJson, adaEntity.toJson]) ≠ 1 :=
  ⟨rfl, rfl, by decide⟩

/-- C1 (amended): appending `e` and then enumerating (with no other mutation
in between) returns the previous sequence with exactly one new copy of `e`
placed at the end, all four fields unchanged; the number of copies of `e`
grows by exactly one (so it is exactly one whenever `e` was not already
stored). -/
theorem C1_append_then_enumerate (s s' : AppState) (e : Entity)
    (resp : HttpResponse) (h : create_entity e s = .ok (resp, s')) :
    resp = createdResponse ∧
    s'.entities.inner = s.entities.inner ++ [e] ∧
    List.count e s'.entities.inner = List.count e s.entities.inner + 1 ∧
    list_entities s' = .ok
      (⟨200, .arr (.ofList ((s.entities.inner ++ [e]).map Entity.toJson))⟩,
        s') := by
  rw [create_entity_characterization] at h
  by_cases hp : s.entities.poisoned
  · simp [hp] at h
  · simp [hp] at h
    obtain ⟨hresp, hs⟩ := h
    subst hresp
    subst hs
    refine ⟨rfl, rfl, ?_, ?_⟩
    · simp
    · rw [list_entities_characterization]
      simp

/-- C1 witness: the amended claim at the empty initial store and the spec's
sample entity. -/
theorem C1_append_then_enumerate_witness :
    createdResponse = createdResponse ∧
    stateWithAda.entities.inner =
      initialAppState.entities.inner ++ [adaEntity] ∧
    List.count adaEntity stateWithAda.entities.inner =
      List.count adaEntity initialAppState.entities.inner + 1 ∧
    list_entities stateWithAda = .ok
      (⟨200, .arr (.ofList
        ((initialAppState.entities.inner ++ [adaEntity]).map Entity.toJson))⟩,
        stateWithAda) :=
  C1_append_then_enumerate initialAppState stateWithAda adaEntity
    createdResponse rfl

/-- C2: on an unpoisoned store, append always succeeds (no validation or
rejection path), the resulting sequence is the old one with the record at
the end so the length grows by one, and after appending `e1` then `e2` the
stored sequence has `e1` strictly before `e2`. -/
theorem C2_append_always_succeeds (s : AppState) (e e1 e2 : Entity)
    (h : s.entities.poisoned = false) :
    (∃ s', create_entity e s = .ok (createdResponse, s') ∧
      s'.entities.inner = s.entities.inner ++ [e] ∧
      s'.entities.inner.length = s.entities.inner.length + 1) ∧
    (∃ s1 s2, create_entity e1 s = .ok (createdResponse, s1) ∧
      create_entity e2 s1 = .ok (createdResponse, s2) ∧
      s2.entities.inner = s.entities.inner ++ [e1, e2] ∧
      ∃ pre mid post, s2.entities.inner = pre ++ e1 :: mid ++ e2 :: post) := by
  constructor
  · refine ⟨{ s with entities := ⟨false, s.entities.inner ++ [e]⟩ },
      ?_, rfl, by simp⟩
    rw [create_entity_characterization]
    simp [h]
  · refine ⟨{ s with entities := ⟨false, s.entities.inner ++ [e1]⟩ },
      { s with entities := ⟨false, (s.entities.inner ++ [e1]) ++ [e2]⟩ },
      ?_, ?_, ?_, s.entities.inner, [], [], ?_⟩
    · rw [create_entity_characterization]
      simp [h]
    · rw [create_entity_characterization]
      simp [h]
    · simp
    · simp

/-- C2 witness: appending the spec's two sample entities to the initial
store. -/
theorem C2_append_always_succeeds_witness :
    (∃ s', create_entity adaEntity initialAppState = .ok (createdResponse, s') ∧
      s'.entities.inner = initialAppState.entities.inner ++ [adaEntity] ∧
      s'.entities.inner.length = initialAppState.entities.inner.length + 1) ∧
    (∃ s1 s2,
      create_entity adaEntity initialAppState = .ok (createdResponse, s1) ∧
      create_entity paperEntity s1 = .ok (createdResponse, s2) ∧
      s2.entities.inner =
        initialAppState.entities.inner ++ [adaEntity, paperEntity] ∧
      ∃ pre mid post,
        s2.entities.inner = pre ++ adaEntity :: mid ++ paperEntity :: post) :=
  C2_append_always_succeeds initialAppState adaEntity adaEntity paperEntity rfl

/-- C4: appending a relationship leaves the entity store (lock state and
contents) exactly unchanged, and appending an entity leaves the relationship
store exactly unchanged. -/
theorem C4_store_independence (s s1 s2 : AppState) (e : Entity)
    (r : Relationship) (re rr : HttpResponse)
    (he : create_entity e s = .ok (re, s1))
    (hr : create_relationship r s = .ok (rr, s2)) :
    s1.relationships = s.relationships ∧ s2.entities = s.entities := by
  rw [create_entity_characterization] at he
  rw [create_relationship_characterization] at hr
  by_cases hp : s.entities.poisoned
  · simp [hp] at he
  · by_cases hq : s.relationships.poisoned
    · simp [hq] at hr
    · simp [hp] at he
      simp [hq] at hr
      obtain ⟨-, hs1⟩ := he
      obtain ⟨-, hs2⟩ := hr
      subst hs1
      subst hs2
      exact ⟨rfl, rfl⟩

/-- C4 witness: the independence of the two stores at the initial state with
the spec's sample records. -/
theorem C4_store_independence_witness :
    stateWithAda.relationships = initialAppState.relationships ∧
    stateWithRel.entities = initialAppState.entities :=
  C4_store_independence initialAppState stateWithAda stateWithRel adaEntity
    authoredRel createdResponse createdResponse rfl rfl

/-- C5: each of the three handlers is append-only: whenever it succeeds, the
previous contents of each collection are an initial segment of the new
contents (nothing is modified, reordered, or removed), and a panic leaves no
new state at all. -/
theorem C5_append_only (s : AppState) (e : Entity) (r : Relationship) :
    (∀ resp s', create_entity e s = .ok (resp, s') →
      (∃ t, s'.entities.inner = s.entities.inner ++ t) ∧
      (∃ t, s'.relationships.inner = s.relationships.inner ++ t)) ∧
    (∀ resp s', list_entities s = .ok (resp, s') →
      (∃ t, s'.entities.inner = s.entities.inner ++ t) ∧
      (∃ t, s'.relationships.inner = s.relationships.inner ++ t)) ∧
    (∀ resp s', create_relationship r s = .ok (resp, s') →
      (∃ t, s'.entities.inner = s.entities.inner ++ t) ∧
      (∃ t, s'.relationships.inner = s.relationships.inner ++ t)) := by
  refine ⟨fun resp s' h => ?_, fun resp s' h => ?_, fun resp s' h => ?_⟩
  · rw [create_entity_characterization] at h
    by_cases hp : s.entities.poisoned
    · simp [hp] at h
    · simp [hp] at h
      obtain ⟨-, hs⟩ := h
      subst hs
      exact ⟨⟨[e], rfl⟩, ⟨[], by simp⟩⟩
  · rw [list_entities_characterization] at h
    by_cases hp : s.entities.poisoned
    · simp [hp] at h
    · simp [hp] at h
      obtain ⟨-, hs⟩ := h
      subst hs
      exact ⟨⟨[], by simp⟩, ⟨[], by simp⟩⟩
  · rw [create_relationship_characterization] at h
    by_cases hq : s.relationships.poisoned
    · simp [hq] at h
    · simp [hq] at h
      obtain ⟨-, hs⟩ := h
      subst hs
      exact ⟨⟨[], by simp⟩, ⟨[r], rfl⟩⟩

/-- C5 witness: the append-only property of `create_entity` at a concrete
nonempty store. -/
theorem C5_append_only_witness :
    (∃ t, stateWithAdaPaper.entities.inner =
      stateWithAda.entities.inner ++ t) ∧
    (∃ t, stateWithAdaPaper.relationships.inner =
      stateWithAda.relationships.inner ++ t) :=
  (C5_append_only stateWithAda paperEntity authoredRel).1 createdResponse
    stateWithAdaPaper rfl

/-- C6: no uniqueness is enforced on `id`: appending two entities with the
same id succeeds both times, and a subsequent enumeration returns both
records (both are stored, in order). -/
theorem C6_duplicate_ids (s : AppState) (e1 e2 : Entity)
    (hid : e1.id = e2.id) (h : s.entities.poisoned = false) :
    ∃ s1 s2, create_entity e1 s = .ok (createdResponse, s1) ∧
      create_entity e2 s1 = .ok (createdResponse, s2) ∧
      s2.entities.inner = s.entities.inner ++ [e1, e2] ∧
      e1 ∈ s2.entities.inner ∧ e2 ∈ s2.entities.inner ∧
      list_entities s2 = .ok
        (⟨200, .arr (.ofList
          ((s.entities.inner ++ [e1, e2]).map Entity.toJson))⟩, s2) := by
  refine ⟨{ s with entities := ⟨false, s.entities.inner ++ [e1]⟩ },
    { s with entities := ⟨false, (s.entities.inner ++ [e1]) ++ [e2]⟩ },
    ?_, ?_, ?_, by simp, by simp, ?_⟩
  · rw [create_entity_characterization]
    simp [h]
  · rw [create_entity_characterization]
    simp [h]
  · simp
  · rw [list_entities_characterization]
    simp

/-- C6 witness: two entities sharing the id `e1` both end up stored. -/
theorem C6_duplicate_ids_witness :
    ∃ s1 s2,
      create_entity adaEntity initialAppState = .ok (createdResponse, s1) ∧
      create_entity adaDuplicate s1 = .ok (createdResponse, s2) ∧
      s2.entities.inner =
        initialAppState.entities.inner ++ [adaEntity, adaDuplicate] ∧
      adaEntity ∈ s2.entities.inner ∧ adaDuplicate ∈ s2.entities.inner ∧
      list_entities s2 = .ok
        (⟨200, .arr (.ofList
          ((initialAppState.entities.inner ++ [adaEntity, adaDuplicate]).map
            Entity.toJson))⟩, s2) :=
  C6_duplicate_ids initialAppState adaEntity adaDuplicate rfl rfl

/-- C7: on the freshly started store built in `main`, enumeration returns the
empty JSON array for the entity collection, and likewise for the
relationship collection (whose enumeration is modelled from the spec, since
no listing route for it exists in the source). -/
theorem C7_empty_baseline :
    list_entities initialAppState =
      .ok (⟨200, .arr .nil⟩, initialAppState) ∧
    list_relationships initialAppState =
      .ok (⟨200, .arr .nil⟩, initialAppState) :=
  ⟨rfl, rfl⟩

/-- C8: a handler panics (aborting the current request) exactly when the lock
it takes is poisoned; when that lock is healthy the handler succeeds, so in
no other case do append or enumerate fail. -/
theorem C8_poison_fatal (s : AppState) (e : Entity) (r : Relationship) :
    (s.entities.poisoned = true →
      create_entity e s = .error .poisoned ∧
      list_entities s = .error .poisoned) ∧
    (s.relationships.poisoned = true →
      create_relationship r s = .error .poisoned) ∧
    (s.entities.poisoned = false →
      (∃ s1, create_entity e s = .ok (createdResponse, s1)) ∧
      (∃ resp s2, list_entities s = .ok (resp, s2))) ∧
    (s.relationships.poisoned = false →
      ∃ s3, create_relationship r s = .ok (createdResponse, s3)) := by
  rw [create_entity_characterization, list_entities_characterization,
    create_relationship_characterization]
  refine ⟨fun hp => ?_, fun hq => ?_, fun hp => ?_, fun hq => ?_⟩
  · simp [hp]
  · simp [hq]
  · simp [hp]
  · simp [hq]

/-- C8 witness: both locks poisoned makes every handler abort; the healthy
initial store makes `create_entity` succeed. -/
theorem C8_poison_fatal_witness :
    (create_entity adaEntity poisonedState = .error .poisoned ∧
      list_entities poisonedState = .error .poisoned) ∧
    (∃ s1, create_entity adaEntity initialAppState =
      .ok (createdResponse, s1)) :=
  ⟨(C8_poison_fatal poisonedState adaEntity authoredRel).1 rfl,
    ((C8_poison_fatal initialAppState adaEntity authoredRel).2.2.1 rfl).1⟩

/-- C9: enumeration is read-only: a successful `list_entities` call returns
the state it was given (both collections unchanged), so an immediately
repeated call returns the same response and state. -/
theorem C9_enumerate_readonly (s s' : AppState) (resp : HttpResponse)
    (h : list_entities s = .ok (resp, s')) :
    s' = s ∧ list_entities s' = .ok (resp, s') := by
  rw [list_entities_characterization] at h
  by_cases hp : s.entities.poisoned
  · simp [hp] at h
  · simp [hp] at h
    obtain ⟨hresp, hs⟩ := h
    subst hs
    refine ⟨rfl, ?_⟩
    rw [list_entities_characterization]
    simp [hp, hresp]

/-- C9 witness: repeated enumeration of a one-entity store. -/
theorem C9_enumerate_readonly_witness :
    stateWithAda = stateWithAda ∧
    list_entities stateWithAda = .ok
      (⟨200, .arr (.ofList [adaEntity.toJson])⟩, stateWithAda) :=
  C9_enumerate_readonly stateWithAda stateWithAda
    ⟨200, .arr (.ofList [adaEntity.toJson])⟩ rfl

/-- C10: every handler is a pure function of the incoming record and the
store state, so two runs from equal states produce equal responses and
equal resulting states. -/
theorem C10_deterministic (s t : AppState) (e : Entity) (r : Relationship)
    (h : s = t) :
    create_entity e s = create_entity e t ∧
    list_entities s = list_entities t ∧
    create_relationship r s = create_relationship r t := by
  subst h
  exact ⟨rfl, rfl, rfl⟩

/-- C10 witness: determinism at the initial state with the sample records. -/
theorem C10_deterministic_witness :
    create_entity adaEntity initialAppState =
      create_entity adaEntity initialAppState ∧
    list_entities initialAppState = list_entities initialAppState ∧
    create_relationship authoredRel initialAppState =
      create_relationship authoredRel initialAppState :=
  C10_deterministic initialAppState initialAppState adaEntity authoredRel rfl

end KnowledgeGraph
